import Mathlib

/-
  Verification development for the aircraft-position simulation and
  ghost-tracking subsystem of the fly-and-seek repository.

  Shallow embedding conventions:
  * JavaScript numbers are modelled as real numbers (ℝ); `null`/`undefined`
    number fields are modelled as `Option ℝ` (so the JS falsy test
    `!x` on a number-or-null becomes `x.getD 0 = 0`).
  * The insertion-ordered JavaScript `Map` backing the active-flight
    registry is modelled as an association list `List (String × IFlight)`
    whose keys are kept distinct, exactly as `Map` keys are.
  * Embedded functions:
      - `calculateDestinationPoint`, `predictCurrentPosition`
        from frontend/src/utils/deadReckoning.ts;
      - `updateFlightPosition`, the tick body of `startAnimation`
        (`animationTick`), `sendNextBatch` and `loadDataset`
        from the backend `OpenSkyHistoricalService`;
      - `calculateSearchRadius` from the frontend search-area utilities.
-/

namespace FlightSim

/-- JavaScript `Math.atan2 y x` over ℝ (signed zeros are not modelled;
`atan2 0 0 = 0` as in JS). -/
noncomputable def atan2 (y x : ℝ) : ℝ :=
  if 0 < x then Real.arctan (y / x)
  else if x < 0 ∧ 0 ≤ y then Real.arctan (y / x) + Real.pi
  else if x < 0 ∧ y < 0 then Real.arctan (y / x) - Real.pi
  else if x = 0 ∧ 0 < y then Real.pi / 2
  else if x = 0 ∧ y < 0 then -(Real.pi / 2)
  else 0

/-- deadReckoning.ts: `EARTH_RADIUS_METERS`. -/
def EARTH_RADIUS_METERS : ℝ := 6371000

/-- deadReckoning.ts: `toRadians`. -/
noncomputable def toRadians (degrees : ℝ) : ℝ := degrees * Real.pi / 180

/-- deadReckoning.ts: `toDegrees`. -/
noncomputable def toDegrees (radians : ℝ) : ℝ := radians * 180 / Real.pi

/-- deadReckoning.ts: `calculateDestinationPoint`.  Returns the pair
`(longitude, latitude)` in that order, as the source does. -/
noncomputable def calculateDestinationPoint
    (startLat startLon distanceMeters bearingDegrees : ℝ) : ℝ × ℝ :=
  let delta := distanceMeters / EARTH_RADIUS_METERS
  let theta := toRadians bearingDegrees
  let phi1 := toRadians startLat
  let lam1 := toRadians startLon
  let phi2 := Real.arcsin
    (Real.sin phi1 * Real.cos delta + Real.cos phi1 * Real.sin delta * Real.cos theta)
  let lam2 := lam1 + atan2
    (Real.sin theta * Real.sin delta * Real.cos phi1)
    (Real.cos delta - Real.sin phi1 * Real.sin phi2)
  (toDegrees lam2, toDegrees phi2)

/-- deadReckoning.ts: `predictCurrentPosition` (speed already in m/s). -/
noncomputable def predictCurrentPosition
    (lastLat lastLon speedMs heading timeElapsedSeconds : ℝ) : ℝ × ℝ :=
  let distanceMeters := speedMs * timeElapsedSeconds
  calculateDestinationPoint lastLat lastLon distanceMeters heading

/-- The great-circle destination-point formula exactly as written in §4.3 of
the spec: `delta = d / 6371000`,
`phi2 = asin (sin phi1 * cos delta + cos phi1 * sin delta * cos theta)`,
`lam2 = lam1 + atan2 (sin theta * sin delta * cos phi1) (cos delta - sin phi1 * sin phi2)`,
with the degree/radian conversions only at entry and exit. -/
noncomputable def specDestinationPoint
    (startLat startLon distanceMeters bearingDegrees : ℝ) : ℝ × ℝ :=
  let delta := distanceMeters / 6371000
  let theta := toRadians bearingDegrees
  let phi1 := toRadians startLat
  let lam1 := toRadians startLon
  let phi2 := Real.arcsin
    (Real.sin phi1 * Real.cos delta + Real.cos phi1 * Real.sin delta * Real.cos theta)
  let lam2 := lam1 + atan2
    (Real.sin theta * Real.sin delta * Real.cos phi1)
    (Real.cos delta - Real.sin phi1 * Real.sin phi2)
  (toDegrees lam2, toDegrees phi2)

/-- Unfolding of the latitude component of `calculateDestinationPoint`. -/
lemma calculateDestinationPoint_snd (a b c d : ℝ) :
    (calculateDestinationPoint a b c d).2 =
      toDegrees (Real.arcsin
        (Real.sin (toRadians a) * Real.cos (c / EARTH_RADIUS_METERS)
          + Real.cos (toRadians a) * Real.sin (c / EARTH_RADIUS_METERS)
            * Real.cos (toRadians d))) := rfl

/-- Unfolding of the longitude component of `calculateDestinationPoint`. -/
lemma calculateDestinationPoint_fst (a b c d : ℝ) :
    (calculateDestinationPoint a b c d).1 =
      toDegrees (toRadians b + atan2
        (Real.sin (toRadians d) * Real.sin (c / EARTH_RADIUS_METERS)
          * Real.cos (toRadians a))
        (Real.cos (c / EARTH_RADIUS_METERS) - Real.sin (toRadians a)
          * Real.sin (Real.arcsin
              (Real.sin (toRadians a) * Real.cos (c / EARTH_RADIUS_METERS)
                + Real.cos (toRadians a) * Real.sin (c / EARTH_RADIUS_METERS)
                  * Real.cos (toRadians d))))) := rfl

/-- On the open strip, `atan2` undoes the polar pair `(sin, cos)`. -/
lemma atan2_sin_cos {x : ℝ} (h1 : -(Real.pi / 2) < x) (h2 : x < Real.pi / 2) :
    atan2 (Real.sin x) (Real.cos x) = x := by
  have hc : 0 < Real.cos x := Real.cos_pos_of_mem_Ioo ⟨h1, h2⟩
  rw [atan2, if_pos hc, ← Real.tan_eq_sin_div_cos, Real.arctan_tan h1 h2]

/-- `atan2 0 x = 0` for positive `x`. -/
lemma atan2_zero_pos {x : ℝ} (hx : 0 < x) : atan2 0 x = 0 := by
  rw [atan2, if_pos hx, zero_div, Real.arctan_zero]

/-- Degrees and radians conversions are mutually inverse. -/
lemma toDegrees_toRadians (x : ℝ) : toDegrees (toRadians x) = x := by
  have hpi := Real.pi_ne_zero
  field_simp [toRadians, toDegrees]

/-- C2: for every latitude, longitude, distance in meters and bearing in
degrees, `calculateDestinationPoint` returns exactly the great-circle
destination point prescribed by the spec (`phi2` by `asin`, `lam2` by
`atan2`, radius 6371000 m, degree/radian conversion only at the
boundary). -/
theorem C2_theorem :
    ∀ startLat startLon distanceMeters bearingDegrees : ℝ,
      calculateDestinationPoint startLat startLon distanceMeters bearingDegrees
        = specDestinationPoint startLat startLon distanceMeters bearingDegrees :=
  fun _ _ _ _ => rfl

/-- The flight records held by `OpenSkyHistoricalService.activeFlights`
(backend `IFlight` shape).  `velocity` and `trueTrack` are JS numbers that
may be `null`/`undefined`, hence `Option ℝ`. -/
structure IFlight where
  flightId : String
  callsign : String
  latitude : ℝ
  longitude : ℝ
  velocity : Option ℝ
  trueTrack : Option ℝ
  color : String
  isGhost : Bool

/-- `updateFlightPosition` local: `const velocityMPS = (flight.velocity * 1852) / 3600`. -/
noncomputable def serverVelocityMPS (flight : IFlight) : ℝ :=
  flight.velocity.getD 0 * 1852 / 3600

/-- `updateFlightPosition` local: `const headingRad = (flight.trueTrack * Math.PI) / 180`. -/
noncomputable def serverHeadingRad (flight : IFlight) : ℝ :=
  flight.trueTrack.getD 0 * Real.pi / 180

/-- `updateFlightPosition` local: `const distanceM = velocityMPS * deltaTimeSeconds`. -/
noncomputable def serverDistanceM (flight : IFlight) (deltaTimeSeconds : ℝ) : ℝ :=
  serverVelocityMPS flight * deltaTimeSeconds

/-- `updateFlightPosition` local:
`const latChange = (distanceM * Math.cos(headingRad)) / 111320`. -/
noncomputable def serverLatChange (flight : IFlight) (deltaTimeSeconds : ℝ) : ℝ :=
  serverDistanceM flight deltaTimeSeconds * Real.cos (serverHeadingRad flight) / 111320

/-- `updateFlightPosition` local: `const lonChange =
(distanceM * Math.sin(headingRad)) / (111320 * Math.cos(flight.latitude * Math.PI / 180))`. -/
noncomputable def serverLonChange (flight : IFlight) (deltaTimeSeconds : ℝ) : ℝ :=
  serverDistanceM flight deltaTimeSeconds * Real.sin (serverHeadingRad flight)
    / (111320 * Real.cos (flight.latitude * Real.pi / 180))

/-- The two sequential wrap conditionals of `updateFlightPosition`:
`if (lon > 180) lon -= 360; if (lon < -180) lon += 360;`. -/
noncomputable def wrapLon (lon : ℝ) : ℝ :=
  let l1 := if 180 < lon then lon - 360 else lon
  if l1 < -180 then l1 + 360 else l1

/-- Backend `OpenSkyHistoricalService.updateFlightPosition`: the guard
`if (!flight.velocity || !flight.trueTrack) return;` (JS falsy: 0, null or
undefined), then the equirectangular step with knots→m/s conversion,
single-step longitude wrap and latitude clamp
`Math.max(-90, Math.min(90, lat))`. -/
noncomputable def updateFlightPosition (flight : IFlight) (deltaTimeSeconds : ℝ) : IFlight :=
  if flight.velocity.getD 0 = 0 ∨ flight.trueTrack.getD 0 = 0 then flight
  else
    { flight with
        latitude := max (-90) (min 90 (flight.latitude + serverLatChange flight deltaTimeSeconds))
        longitude := wrapLon (flight.longitude + serverLonChange flight deltaTimeSeconds) }

/-- When the falsy guard fires, the flight is returned unmoved. -/
lemma updateFlightPosition_guard (flight : IFlight) (dt : ℝ)
    (h : flight.velocity.getD 0 = 0 ∨ flight.trueTrack.getD 0 = 0) :
    updateFlightPosition flight dt = flight := by
  unfold updateFlightPosition
  rw [if_pos h]

/-- When both velocity and heading are truthy, the wrapped/clamped move is applied. -/
lemma updateFlightPosition_move (flight : IFlight) (dt : ℝ)
    (h : ¬ (flight.velocity.getD 0 = 0 ∨ flight.trueTrack.getD 0 = 0)) :
    updateFlightPosition flight dt =
      { flight with
          latitude := max (-90) (min 90 (flight.latitude + serverLatChange flight dt))
          longitude := wrapLon (flight.longitude + serverLonChange flight dt) } := by
  unfold updateFlightPosition
  rw [if_neg h]

/-- The body of the `setInterval` callback installed by
`OpenSkyHistoricalService.startAnimation`: with zero connected sockets the
callback returns before touching any flight (`if (size === 0) return`);
otherwise every active flight is advanced by `updateFlightPosition` and the
updated list is emitted when non-empty (`if (updatedFlights.length > 0)`).
First component: the registry flights after the tick; second: the emitted
payload (`none` when no emission happened). -/
noncomputable def animationTick (listeners : ℕ) (deltaTimeSeconds : ℝ)
    (flights : List IFlight) : List IFlight × Option (List IFlight) :=
  if listeners = 0 then (flights, none)
  else
    let updated := flights.map (fun f => updateFlightPosition f deltaTimeSeconds)
    (updated, if 0 < updated.length then some updated else none)

/-- C10: a flight whose velocity is 0, null or undefined, or whose
`trueTrack` heading is exactly 0, null or undefined, is left with latitude
and longitude completely unchanged by a server animation step, for any
elapsed time: a defined due-north heading of exactly 0 degrees is treated
like an undefined heading. -/
theorem C10_theorem (flight : IFlight) (dt : ℝ)
    (h : flight.velocity = none ∨ flight.velocity = some 0
        ∨ flight.trueTrack = none ∨ flight.trueTrack = some 0) :
    (updateFlightPosition flight dt).latitude = flight.latitude
      ∧ (updateFlightPosition flight dt).longitude = flight.longitude := by
  have hg : flight.velocity.getD 0 = 0 ∨ flight.trueTrack.getD 0 = 0 := by
    rcases h with h | h | h | h <;> simp [h]
  rw [updateFlightPosition_guard flight dt hg]
  exact ⟨rfl, rfl⟩

/-- A concrete due-north flight used to instantiate C10. -/
def northFlight : IFlight :=
  { flightId := "north", callsign := "north", latitude := 32, longitude := 34.9,
    velocity := some 250, trueTrack := some 0, color := "#FFD700", isGhost := false }

/-- Witness for C10 at a flight with nonzero velocity and heading exactly 0. -/
theorem C10_witness :
    (updateFlightPosition northFlight 7).latitude = northFlight.latitude
      ∧ (updateFlightPosition northFlight 7).longitude = northFlight.longitude :=
  C10_theorem northFlight 7 (Or.inr (Or.inr (Or.inr rfl)))

/-- A concrete eastbound flight at the origin: velocity 1 (treated as knots
by the server, as m/s by the ghost path), heading 90 degrees. -/
def moverFlight : IFlight :=
  { flightId := "m", callsign := "m", latitude := 0, longitude := 0,
    velocity := some 1, trueTrack := some 90, color := "#FFD700", isGhost := false }

lemma moverFlight_guard :
    ¬ (moverFlight.velocity.getD 0 = 0 ∨ moverFlight.trueTrack.getD 0 = 0) := by
  simp only [moverFlight, Option.getD_some]
  norm_num

lemma mover_headingRad : serverHeadingRad moverFlight = Real.pi / 2 := by
  show (Option.getD (some (90:ℝ)) 0) * Real.pi / 180 = Real.pi / 2
  rw [Option.getD_some]
  ring

lemma mover_lonChange : serverLonChange moverFlight 1 = 463 / 100188000 := by
  unfold serverLonChange serverDistanceM serverVelocityMPS
  rw [mover_headingRad]
  have hlat : moverFlight.latitude * Real.pi / 180 = 0 := by
    show (0:ℝ) * Real.pi / 180 = 0
    ring
  rw [hlat, Real.cos_zero, Real.sin_pi_div_two]
  show (Option.getD (some (1:ℝ)) 0) * 1852 / 3600 * 1 * 1 / (111320 * 1) = 463 / 100188000
  rw [Option.getD_some]
  norm_num

lemma mover_longitude : (updateFlightPosition moverFlight 1).longitude = 463 / 100188000 := by
  rw [updateFlightPosition_move moverFlight 1 moverFlight_guard]
  show wrapLon (moverFlight.longitude + serverLonChange moverFlight 1) = 463 / 100188000
  have hv : moverFlight.longitude + serverLonChange moverFlight 1 = 463 / 100188000 := by
    rw [mover_lonChange]
    show (0:ℝ) + 463 / 100188000 = 463 / 100188000
    ring
  rw [hv]
  simp only [wrapLon]
  rw [if_neg (by norm_num : ¬ (180:ℝ) < 463 / 100188000)]
  rw [if_neg (by norm_num : ¬ (463:ℝ) / 100188000 < -180)]

lemma ghost_lon : (predictCurrentPosition 0 0 1 90 1).1 = 180 / (6371000 * Real.pi) := by
  show (calculateDestinationPoint 0 0 (1 * 1) 90).1 = _
  rw [calculateDestinationPoint_fst]
  have h0 : toRadians 0 = 0 := by unfold toRadians; ring
  have h90 : toRadians 90 = Real.pi / 2 := by unfold toRadians; ring
  have hd : (1 * 1 : ℝ) / EARTH_RADIUS_METERS = 1 / 6371000 := by
    unfold EARTH_RADIUS_METERS; norm_num
  rw [h0, h90, hd, Real.sin_zero, Real.cos_zero, Real.sin_pi_div_two, Real.cos_pi_div_two]
  simp only [one_mul, mul_one, zero_mul, mul_zero, add_zero, zero_add, sub_zero]
  have hb1 : -(Real.pi / 2) < (1:ℝ) / 6371000 := by nlinarith [Real.pi_pos]
  have hb2 : (1:ℝ) / 6371000 < Real.pi / 2 := by nlinarith [Real.pi_gt_three]
  rw [atan2_sin_cos hb1 hb2]
  unfold toDegrees
  ring

/-- C1 counterexample: at latitude 0, longitude 0, velocity 1, heading 90
and one elapsed second, the displacement applied by the server tick
(`updateFlightPosition`) differs from the displacement computed by the
ghost predictor (`predictCurrentPosition`): the live and ghost paths are
two distinct dead-reckoning implementations and diverge numerically. -/
theorem C1_counterexample :
    (updateFlightPosition moverFlight 1).longitude ≠ (predictCurrentPosition 0 0 1 90 1).1 := by
  rw [mover_longitude, ghost_lon]
  intro h
  have hpi : Real.pi < 3.15 := Real.pi_lt_d2
  have hpi0 := Real.pi_pos
  have h1 : (180:ℝ) / (6371000 * 3.15) < 180 / (6371000 * Real.pi) := by
    apply div_lt_div_of_pos_left (by norm_num) (by positivity)
    nlinarith
  have h2 : (463:ℝ) / 100188000 < 180 / (6371000 * 3.15) := by norm_num
  linarith

/-- C4 counterexample: on a tick with zero connected listeners the
simulator does NOT advance positions — the whole callback returns early,
so the registry is left untouched and nothing is emitted, even for a
flight that a position update would have moved. -/
theorem C4_counterexample :
    (animationTick 0 1 [moverFlight]).1 = [moverFlight]
      ∧ (animationTick 0 1 [moverFlight]).2 = none
      ∧ updateFlightPosition moverFlight 1 ≠ moverFlight := by
  refine ⟨rfl, rfl, ?_⟩
  intro h
  have hlon := congrArg IFlight.longitude h
  rw [mover_longitude] at hlon
  have hz : moverFlight.longitude = 0 := rfl
  rw [hz] at hlon
  norm_num at hlon

/-- C4 (amended): on a tick with zero connected listeners, the animation
callback is a complete no-op — simulated positions are frozen (not
advanced) and no emission happens; positions only resume advancing once a
listener connects. -/
theorem C4_theorem (dt : ℝ) (flights : List IFlight) :
    animationTick 0 dt flights = (flights, none) := rfl

/-- A zero-distance projection returns the starting point unchanged, for
latitudes strictly between the poles. -/
lemma calculateDestinationPoint_zero_dist (lat lon bearing : ℝ)
    (h1 : -90 < lat) (h2 : lat < 90) :
    calculateDestinationPoint lat lon 0 bearing = (lon, lat) := by
  have hpi := Real.pi_pos
  have hphi1 : -(Real.pi / 2) < toRadians lat := by
    unfold toRadians
    nlinarith [mul_pos (by linarith : (0:ℝ) < lat + 90) Real.pi_pos]
  have hphi2 : toRadians lat < Real.pi / 2 := by
    unfold toRadians
    nlinarith [mul_pos (by linarith : (0:ℝ) < 90 - lat) Real.pi_pos]
  have hd : (0:ℝ) / EARTH_RADIUS_METERS = 0 := by
    unfold EARTH_RADIUS_METERS; norm_num
  have hsin : Real.sin (Real.arcsin (Real.sin (toRadians lat))) = Real.sin (toRadians lat) :=
    Real.sin_arcsin (Real.neg_one_le_sin _) (Real.sin_le_one _)
  have hcos : 0 < Real.cos (toRadians lat) := Real.cos_pos_of_mem_Ioo ⟨hphi1, hphi2⟩
  have hx : 0 < 1 - Real.sin (toRadians lat) * Real.sin (toRadians lat) := by
    nlinarith [Real.sin_sq_add_cos_sq (toRadians lat)]
  refine Prod.ext ?_ ?_
  · rw [calculateDestinationPoint_fst, hd, Real.sin_zero, Real.cos_zero]
    simp only [one_mul, mul_one, zero_mul, mul_zero, add_zero, zero_add, sub_zero]
    rw [hsin, atan2_zero_pos hx, add_zero, toDegrees_toRadians]
  · rw [calculateDestinationPoint_snd, hd, Real.sin_zero, Real.cos_zero]
    simp only [one_mul, mul_one, zero_mul, mul_zero, add_zero, zero_add, sub_zero]
    rw [Real.arcsin_sin (le_of_lt hphi1) (le_of_lt hphi2), toDegrees_toRadians]

/-- C1 (amended): the live path (`updateFlightPosition`, equirectangular
step on a knots-interpreted velocity) and the ghost path
(`predictCurrentPosition`, great-circle step on an m/s velocity) are two
independent dead-reckoning implementations that diverge numerically on
moving flights (see the counterexample); they agree only degenerately,
e.g. at velocity 0 (away from the poles) both leave the position
unchanged. -/
theorem C1_theorem (f : IFlight) (headingDeg dt : ℝ)
    (hv : f.velocity = some 0)
    (h1 : -90 < f.latitude) (h2 : f.latitude < 90) :
    updateFlightPosition f dt = f
      ∧ predictCurrentPosition f.latitude f.longitude 0 headingDeg dt
          = (f.longitude, f.latitude) := by
  constructor
  · apply updateFlightPosition_guard
    left
    rw [hv]
    rfl
  · show calculateDestinationPoint f.latitude f.longitude (0 * dt) headingDeg = _
    rw [zero_mul]
    exact calculateDestinationPoint_zero_dist f.latitude f.longitude headingDeg h1 h2

/-- A concrete frozen flight (velocity 0) used to instantiate C1. -/
def ghostStillFlight : IFlight :=
  { flightId := "g", callsign := "g", latitude := 10, longitude := 20,
    velocity := some 0, trueTrack := some 45, color := "#FFD700", isGhost := false }

/-- Witness for the amended C1 at a concrete zero-velocity flight. -/
theorem C1_witness :
    updateFlightPosition ghostStillFlight 5 = ghostStillFlight
      ∧ predictCurrentPosition ghostStillFlight.latitude ghostStillFlight.longitude 0 45 5
          = (ghostStillFlight.longitude, ghostStillFlight.latitude) :=
  C1_theorem ghostStillFlight 45 5 rfl
    (by norm_num [ghostStillFlight]) (by norm_num [ghostStillFlight])

/-- The latitude produced by `toDegrees ∘ arcsin` always lies in [-90, 90]. -/
lemma toDegrees_arcsin_mem (s : ℝ) : toDegrees (Real.arcsin s) ∈ Set.Icc (-90:ℝ) 90 := by
  have hpi := Real.pi_pos
  have hl := Real.neg_pi_div_two_le_arcsin s
  have hu := Real.arcsin_le_pi_div_two s
  constructor
  · unfold toDegrees
    rw [le_div_iff₀ hpi]
    linarith
  · unfold toDegrees
    rw [div_le_iff₀ hpi]
    linarith

/-- C3 (amended): the latitude half of the range postcondition holds —
`calculateDestinationPoint` always returns a latitude in [-90, 90] (its
`asin` bounds it), and `updateFlightPosition` keeps latitude in [-90, 90]
whenever the input latitude is (it clamps after moving, and leaves the
flight untouched on the falsy guard).  The longitude half of the original
claim is false: `calculateDestinationPoint` performs no wrapping at all
(see the counterexample). -/
theorem C3_theorem :
    (∀ startLat startLon distanceMeters bearingDegrees : ℝ,
        (calculateDestinationPoint startLat startLon distanceMeters bearingDegrees).2
          ∈ Set.Icc (-90:ℝ) 90)
    ∧ (∀ (f : IFlight) (dt : ℝ), f.latitude ∈ Set.Icc (-90:ℝ) 90 →
        (updateFlightPosition f dt).latitude ∈ Set.Icc (-90:ℝ) 90) := by
  constructor
  · intro a b c d
    rw [calculateDestinationPoint_snd]
    exact toDegrees_arcsin_mem _
  · intro f dt hf
    by_cases hg : f.velocity.getD 0 = 0 ∨ f.trueTrack.getD 0 = 0
    · rw [updateFlightPosition_guard f dt hg]
      exact hf
    · rw [updateFlightPosition_move f dt hg]
      show max (-90) (min 90 (f.latitude + serverLatChange f dt)) ∈ Set.Icc (-90:ℝ) 90
      rw [Set.mem_Icc]
      exact ⟨le_max_left _ _, max_le (by norm_num) (min_le_left _ _)⟩

/-- Witness for the amended C3 at a concrete flight. -/
theorem C3_witness :
    northFlight.latitude ∈ Set.Icc (-90:ℝ) 90
      ∧ (updateFlightPosition northFlight 1).latitude ∈ Set.Icc (-90:ℝ) 90 :=
  ⟨by norm_num [northFlight, Set.mem_Icc],
    C3_theorem.2 northFlight 1 (by norm_num [northFlight, Set.mem_Icc])⟩

lemma c3cex_lon : (calculateDestinationPoint 0 180 6371 90).1
    = 180 + 180 / (1000 * Real.pi) := by
  rw [calculateDestinationPoint_fst]
  have h0 : toRadians 0 = 0 := by unfold toRadians; ring
  have h90 : toRadians 90 = Real.pi / 2 := by unfold toRadians; ring
  have h180 : toRadians 180 = Real.pi := by unfold toRadians; ring
  have hd : (6371:ℝ) / EARTH_RADIUS_METERS = 1 / 1000 := by
    unfold EARTH_RADIUS_METERS; norm_num
  rw [h0, h90, h180, hd, Real.sin_zero, Real.cos_zero, Real.sin_pi_div_two,
    Real.cos_pi_div_two]
  simp only [one_mul, mul_one, zero_mul, mul_zero, add_zero, zero_add, sub_zero]
  have hb1 : -(Real.pi / 2) < (1:ℝ) / 1000 := by nlinarith [Real.pi_pos]
  have hb2 : (1:ℝ) / 1000 < Real.pi / 2 := by nlinarith [Real.pi_gt_three]
  rw [atan2_sin_cos hb1 hb2]
  unfold toDegrees
  field_simp
  ring

/-- C3 counterexample: starting from the valid position (0, 180) and
travelling 6371 m due east, `calculateDestinationPoint` returns a
longitude of `180 + 180/(1000*pi)` degrees, strictly greater than 180:
the frontend primitive performs no wrap into (-180, 180]. -/
theorem C3_counterexample :
    (calculateDestinationPoint 0 180 6371 90).1 ∉ Set.Ioc (-180:ℝ) 180 := by
  rw [c3cex_lon]
  intro h
  have h2 := h.2
  have hpos : 0 < 180 / (1000 * Real.pi) := by positivity
  linarith

/-- A raw dataset entry as consumed by `mapStateToFlight`: either the keyed
object shape `{icao24, callsign, lat, lon, velocity, heading}` or the
OpenSky array shape, of which the code reads indices 0 (icao24),
1 (callsign), 5 (longitude), 6 (latitude), 9 (velocity) and
10 (true track).  Nullable JS values are `Option`s. -/
inductive RawState where
  | obj (icao24 : String) (callsign : Option String) (lat lon velocity heading : Option ℝ)
  | arr (f0 f1 : Option String) (f5 f6 f9 f10 : Option ℝ)

/-- `callsign?.trim() || icao24` of `mapStateToFlight`. -/
def resolveCallsign (callsign : Option String) (icao24 : String) : String :=
  match callsign with
  | some c => if c.trim = "" then icao24 else c.trim
  | none => icao24

/-- Backend `OpenSkyHistoricalService.mapStateToFlight`: extracts the id,
callsign, coordinates, velocity and true track from either input shape,
returns `none` when the id is falsy or either coordinate is null, and
coalesces falsy velocity/heading to 0 (`velocity || 0`, `trueTrack || 0`). -/
def mapStateToFlight (state : RawState) : Option IFlight :=
  match state with
  | .obj icao24 callsign lat lon velocity heading =>
      if icao24 = "" ∨ lon.isNone ∨ lat.isNone then none
      else some
        { flightId := icao24
          callsign := resolveCallsign callsign icao24
          latitude := lat.getD 0
          longitude := lon.getD 0
          velocity := some (velocity.getD 0)
          trueTrack := some (heading.getD 0)
          color := "#FFD700"
          isGhost := false }
  | .arr f0 f1 f5 f6 f9 f10 =>
      if f0.getD "" = "" ∨ f5.isNone ∨ f6.isNone then none
      else some
        { flightId := f0.getD ""
          callsign := resolveCallsign f1 (f0.getD "")
          latitude := f6.getD 0
          longitude := f5.getD 0
          velocity := some (f9.getD 0)
          trueTrack := some (f10.getD 0)
          color := "#FFD700"
          isGhost := false }

/-- The mutable state of `OpenSkyHistoricalService` that `sendNextBatch`
reads and writes.  `activeFlights` models the insertion-ordered JS `Map`
as an association list with distinct keys; `listeners` models
`io.sockets.sockets.size`. -/
structure ServerState where
  listeners : ℕ
  currentBatchIndex : ℕ
  allStates : List RawState
  activeFlights : List (String × IFlight)

/-- One step of the refill loop `flights.forEach(...)`:
`if (!activeFlights.has(id)) activeFlights.set(id, {...flight})` — a JS
`Map.set` on a fresh key appends in insertion order. -/
def insertFlight (m : List (String × IFlight)) (f : IFlight) : List (String × IFlight) :=
  if m.any (fun p => p.1 == f.flightId) then m else m ++ [(f.flightId, f)]

/-- `activeFlights.delete(key)` on the association-list model. -/
def deleteKey (m : List (String × IFlight)) (key : String) : List (String × IFlight) :=
  m.filter (fun p => p.1 != key)

/-- `sendNextBatch` local: `endIndex = Math.min(startIndex + BATCH_SIZE, allStates.length)`. -/
def batchEndIndex (batchSize : ℕ) (st : ServerState) : ℕ :=
  min (st.currentBatchIndex + batchSize) st.allStates.length

/-- `sendNextBatch` local: `allStates.slice(startIndex, endIndex)`. -/
def batchSlice (batchSize : ℕ) (st : ServerState) : List RawState :=
  (st.allStates.drop st.currentBatchIndex).take
    (batchEndIndex batchSize st - st.currentBatchIndex)

/-- `sendNextBatch` local: `batchStates.map(mapStateToFlight).filter(≠ null)`. -/
def newBatchFlights (batchSize : ℕ) (st : ServerState) : List IFlight :=
  (batchSlice batchSize st).filterMap mapStateToFlight

/-- The registry after the `flights.forEach` insertion loop of
`sendNextBatch`. -/
def mergedRegistry (batchSize : ℕ) (st : ServerState) : List (String × IFlight) :=
  (newBatchFlights batchSize st).foldl insertFlight st.activeFlights

/-- The capacity limiter of `sendNextBatch`: when `size > MAX`, compute
`toRemove = size - MAX`, take the first `toRemove` keys in Map (insertion)
order and delete each of them. -/
def evictOldest (maxFlights : ℕ) (m : List (String × IFlight)) : List (String × IFlight) :=
  if maxFlights < m.length then
    ((m.map Prod.fst).take (m.length - maxFlights)).foldl deleteKey m
  else m

/-- Backend `OpenSkyHistoricalService.sendNextBatch`, parametric in the
constants `MAX_FLIGHTS_TO_SEND` and `BATCH_SIZE`.  Skips everything when no
client is connected, skips the load when occupancy is at or above the 0.8
low-watermark (`size >= MAX * 0.8`, encoded with the exact integer test
`8 * MAX <= 10 * size`), otherwise maps the next slice, inserts the fresh
ids, evicts the oldest entries down to capacity, and finally advances the
circular batch cursor. -/
def sendNextBatchP (maxFlights batchSize : ℕ) (st : ServerState) : ServerState :=
  if st.listeners = 0 then st
  else if 8 * maxFlights ≤ 10 * st.activeFlights.length then st
  else
    { st with
        activeFlights :=
          if 0 < (newBatchFlights batchSize st).length
          then evictOldest maxFlights (mergedRegistry batchSize st)
          else st.activeFlights
        currentBatchIndex :=
          if st.allStates.length ≤ batchEndIndex batchSize st then 0
          else batchEndIndex batchSize st }

/-- `sendNextBatch` with the source constants
`MAX_FLIGHTS_TO_SEND = 1500` and `BATCH_SIZE = 400`. -/
def sendNextBatch (st : ServerState) : ServerState :=
  sendNextBatchP 1500 400 st

/-- A sequence of refill operations: each entry gives the number of
connected listeners at that tick of the 5-second refill timer. -/
def runRefills (ops : List ℕ) (st : ServerState) : ServerState :=
  ops.foldl (fun s l => sendNextBatch { s with listeners := l }) st

/-- The insertion loop only appends fresh-keyed entries: the pre-existing
registry is kept as an untouched prefix, every appended key was absent
before the loop, and key distinctness is preserved. -/
lemma foldl_insertFlight_decomp (fs : List IFlight) (A : List (String × IFlight)) :
    ∃ news, fs.foldl insertFlight A = A ++ news
      ∧ (∀ p ∈ news, p.1 ∉ A.map Prod.fst)
      ∧ ((A.map Prod.fst).Nodup → ((A ++ news).map Prod.fst).Nodup) := by
  induction fs generalizing A with
  | nil => exact ⟨[], by simp, by simp, by simp⟩
  | cons f rest ih =>
    by_cases h : A.any (fun p => p.1 == f.flightId)
    · have hA : insertFlight A f = A := by
        unfold insertFlight
        rw [if_pos h]
      obtain ⟨news, h1, h2, h3⟩ := ih A
      exact ⟨news, by rw [List.foldl_cons, hA]; exact h1, h2, h3⟩
    · have hA : insertFlight A f = A ++ [(f.flightId, f)] := by
        unfold insertFlight
        rw [if_neg h]
      have hnotmem : f.flightId ∉ A.map Prod.fst := by
        intro hmem
        apply h
        rw [List.any_eq_true]
        obtain ⟨p, hp, hpe⟩ := List.mem_map.mp hmem
        exact ⟨p, hp, by rw [hpe]; exact beq_self_eq_true _⟩
      obtain ⟨news, h1, h2, h3⟩ := ih (A ++ [(f.flightId, f)])
      refine ⟨(f.flightId, f) :: news, ?_, ?_, ?_⟩
      · rw [List.foldl_cons, hA, h1, List.append_assoc]
        rfl
      · intro p hp
        rcases List.mem_cons.mp hp with rfl | hp
        · exact hnotmem
        · intro hmem
          exact h2 p hp (by rw [List.map_append]; exact List.mem_append_left _ hmem)
      · intro hnd
        have hnd2 : ((A ++ [(f.flightId, f)]).map Prod.fst).Nodup := by
          rw [List.map_append]
          refine List.Nodup.append hnd (by simp) ?_
          intro x hx hy
          simp only [List.map_cons, List.map_nil, List.mem_singleton] at hy
          exact hnotmem (hy ▸ hx)
        have hres := h3 hnd2
        rw [List.append_assoc] at hres
        exact hres

/-- Deleting the head key of a registry with distinct keys removes exactly
the head entry. -/
lemma deleteKey_cons_self (a : String × IFlight) (m : List (String × IFlight))
    (hnot : a.1 ∉ m.map Prod.fst) :
    deleteKey (a :: m) a.1 = m := by
  unfold deleteKey
  rw [List.filter_cons]
  have hfalse : (a.1 != a.1) = false := by simp
  rw [hfalse]
  simp only [Bool.false_eq_true, if_false]
  apply List.filter_eq_self.mpr
  intro p hp
  rw [bne_iff_ne]
  intro heq
  apply hnot
  rw [← heq]
  exact List.mem_map_of_mem Prod.fst hp

/-- Sequentially deleting the first `j` keys (in insertion order) of a
distinct-key registry is exactly `List.drop j`: FIFO-on-insert eviction. -/
lemma foldl_deleteKey_take (m : List (String × IFlight)) (j : ℕ)
    (hnd : (m.map Prod.fst).Nodup) :
    ((m.map Prod.fst).take j).foldl deleteKey m = m.drop j := by
  induction m generalizing j with
  | nil => simp
  | cons a m ih =>
    cases j with
    | zero => simp
    | succ j =>
      have hnd' := hnd
      rw [List.map_cons, List.nodup_cons] at hnd'
      rw [List.map_cons, List.take_succ_cons, List.foldl_cons,
        deleteKey_cons_self a m hnd'.1, List.drop_succ_cons]
      exact ih j hnd'.2

/-- Key deletions never add entries. -/
lemma foldl_deleteKey_subset (ks : List String) (m : List (String × IFlight)) :
    ∀ p ∈ ks.foldl deleteKey m, p ∈ m := by
  induction ks generalizing m with
  | nil => intro p hp; exact hp
  | cons k ks ih =>
    intro p hp
    rw [List.foldl_cons] at hp
    exact List.mem_of_mem_filter (ih (deleteKey m k) p hp)

/-- Over capacity, the limiter drops exactly the oldest-inserted entries. -/
lemma evictOldest_drop (maxFlights : ℕ) (m : List (String × IFlight))
    (hnd : (m.map Prod.fst).Nodup) (hover : maxFlights < m.length) :
    evictOldest maxFlights m = m.drop (m.length - maxFlights) := by
  unfold evictOldest
  rw [if_pos hover]
  exact foldl_deleteKey_take m (m.length - maxFlights) hnd

/-- The limiter always leaves at most `maxFlights` entries. -/
lemma evictOldest_length_le (maxFlights : ℕ) (m : List (String × IFlight))
    (hnd : (m.map Prod.fst).Nodup) :
    (evictOldest maxFlights m).length ≤ maxFlights := by
  by_cases hover : maxFlights < m.length
  · rw [evictOldest_drop maxFlights m hnd hover, List.length_drop]
    omega
  · unfold evictOldest
    rw [if_neg hover]
    omega

/-- The limiter only removes entries. -/
lemma evictOldest_subset (maxFlights : ℕ) (m : List (String × IFlight)) :
    ∀ p ∈ evictOldest maxFlights m, p ∈ m := by
  unfold evictOldest
  by_cases hover : maxFlights < m.length
  · rw [if_pos hover]
    exact foldl_deleteKey_subset _ m
  · rw [if_neg hover]
    intro p hp
    exact hp

/-- The limiter preserves key distinctness. -/
lemma evictOldest_nodup (maxFlights : ℕ) (m : List (String × IFlight))
    (hnd : (m.map Prod.fst).Nodup) :
    ((evictOldest maxFlights m).map Prod.fst).Nodup := by
  by_cases hover : maxFlights < m.length
  · rw [evictOldest_drop maxFlights m hnd hover, List.map_drop]
    exact (List.drop_sublist _ _).nodup hnd
  · unfold evictOldest
    rw [if_neg hover]
    exact hnd

/-- One refill step preserves key distinctness of the registry. -/
lemma sendNextBatchP_nodup (maxFlights batchSize : ℕ) (st : ServerState)
    (hnd : (st.activeFlights.map Prod.fst).Nodup) :
    ((sendNextBatchP maxFlights batchSize st).activeFlights.map Prod.fst).Nodup := by
  obtain ⟨news, he, hfresh, h3⟩ :=
    foldl_insertFlight_decomp (newBatchFlights batchSize st) st.activeFlights
  have hmnd : ((mergedRegistry batchSize st).map Prod.fst).Nodup := by
    have hm : mergedRegistry batchSize st = st.activeFlights ++ news := he
    rw [hm]
    exact h3 hnd
  unfold sendNextBatchP
  by_cases h0 : st.listeners = 0
  · rw [if_pos h0]
    exact hnd
  rw [if_neg h0]
  by_cases h1 : 8 * maxFlights ≤ 10 * st.activeFlights.length
  · rw [if_pos h1]
    exact hnd
  rw [if_neg h1]
  show ((if 0 < (newBatchFlights batchSize st).length
      then evictOldest maxFlights (mergedRegistry batchSize st)
      else st.activeFlights).map Prod.fst).Nodup
  by_cases hb : 0 < (newBatchFlights batchSize st).length
  · rw [if_pos hb]
    exact evictOldest_nodup _ _ hmnd
  · rw [if_neg hb]
    exact hnd

/-- One refill step preserves the capacity bound. -/
lemma sendNextBatchP_length_le (maxFlights batchSize : ℕ) (st : ServerState)
    (hnd : (st.activeFlights.map Prod.fst).Nodup)
    (hlen : st.activeFlights.length ≤ maxFlights) :
    (sendNextBatchP maxFlights batchSize st).activeFlights.length ≤ maxFlights := by
  obtain ⟨news, he, hfresh, h3⟩ :=
    foldl_insertFlight_decomp (newBatchFlights batchSize st) st.activeFlights
  have hmnd : ((mergedRegistry batchSize st).map Prod.fst).Nodup := by
    have hm : mergedRegistry batchSize st = st.activeFlights ++ news := he
    rw [hm]
    exact h3 hnd
  unfold sendNextBatchP
  by_cases h0 : st.listeners = 0
  · rw [if_pos h0]
    exact hlen
  rw [if_neg h0]
  by_cases h1 : 8 * maxFlights ≤ 10 * st.activeFlights.length
  · rw [if_pos h1]
    exact hlen
  rw [if_neg h1]
  show (if 0 < (newBatchFlights batchSize st).length
      then evictOldest maxFlights (mergedRegistry batchSize st)
      else st.activeFlights).length ≤ maxFlights
  by_cases hb : 0 < (newBatchFlights batchSize st).length
  · rw [if_pos hb]
    exact evictOldest_length_le _ _ hmnd
  · rw [if_neg hb]
    exact hlen

/-- Both registry invariants hold along any sequence of refill calls. -/
lemma runRefills_invariant (ops : List ℕ) (st : ServerState)
    (hnd : (st.activeFlights.map Prod.fst).Nodup)
    (hlen : st.activeFlights.length ≤ 1500) :
    ((runRefills ops st).activeFlights.map Prod.fst).Nodup
      ∧ (runRefills ops st).activeFlights.length ≤ 1500 := by
  induction ops generalizing st with
  | nil => exact ⟨hnd, hlen⟩
  | cons l ops ih =>
    simp only [runRefills, List.foldl_cons]
    exact ih (sendNextBatch { st with listeners := l })
      (sendNextBatchP_nodup 1500 400 _ hnd)
      (sendNextBatchP_length_le 1500 400 _ hnd hlen)

/-- C5: starting from an empty registry, after any sequence of
`sendNextBatch` refill operations (with any listener counts, dataset and
batch cursor), the number of entries in the active-flight registry never
exceeds the capacity `MAX_FLIGHTS_TO_SEND = 1500`. -/
theorem C5_theorem (ops : List ℕ) (startIndex : ℕ) (states : List RawState) :
    (runRefills ops
        { listeners := 0, currentBatchIndex := startIndex,
          allStates := states, activeFlights := [] }).activeFlights.length ≤ 1500 :=
  (runRefills_invariant ops _ (by simp) (by simp)).2

/-- C6: when inserting a refill batch pushes the registry above capacity,
`sendNextBatch` evicts exactly the `size - capacity` oldest-inserted
entries: the result is the merged registry with its oldest prefix dropped,
occupancy lands exactly at capacity, and the dropped prefix consists
entirely of pre-existing entries (a newly inserted entry of the batch is
never evicted, given that at most `capacity` new entries were inserted, as
is always the case for the source constants `400 ≤ 1500`). -/
theorem C6_theorem (maxFlights batchSize : ℕ) (st : ServerState)
    (hnd : (st.activeFlights.map Prod.fst).Nodup)
    (hl : st.listeners ≠ 0)
    (hw : ¬ 8 * maxFlights ≤ 10 * st.activeFlights.length)
    (hb : 0 < (newBatchFlights batchSize st).length)
    (hover : maxFlights < (mergedRegistry batchSize st).length)
    (hroom : (mergedRegistry batchSize st).length
        ≤ maxFlights + st.activeFlights.length) :
    (sendNextBatchP maxFlights batchSize st).activeFlights
        = (mergedRegistry batchSize st).drop
            ((mergedRegistry batchSize st).length - maxFlights)
      ∧ (sendNextBatchP maxFlights batchSize st).activeFlights.length = maxFlights
      ∧ (mergedRegistry batchSize st).take
            ((mergedRegistry batchSize st).length - maxFlights)
          = st.activeFlights.take
              ((mergedRegistry batchSize st).length - maxFlights) := by
  obtain ⟨news, he, hfresh, h3⟩ :=
    foldl_insertFlight_decomp (newBatchFlights batchSize st) st.activeFlights
  have hm : mergedRegistry batchSize st = st.activeFlights ++ news := he
  have hmnd : ((mergedRegistry batchSize st).map Prod.fst).Nodup := by
    rw [hm]
    exact h3 hnd
  have hactive : (sendNextBatchP maxFlights batchSize st).activeFlights
      = evictOldest maxFlights (mergedRegistry batchSize st) := by
    unfold sendNextBatchP
    rw [if_neg hl, if_neg hw]
    show (if 0 < (newBatchFlights batchSize st).length
        then evictOldest maxFlights (mergedRegistry batchSize st)
        else st.activeFlights) = _
    rw [if_pos hb]
  refine ⟨?_, ?_, ?_⟩
  · rw [hactive, evictOldest_drop _ _ hmnd hover]
  · rw [hactive, evictOldest_drop _ _ hmnd hover, List.length_drop]
    omega
  · have htr : (mergedRegistry batchSize st).length - maxFlights
        ≤ st.activeFlights.length := by omega
    generalize hX : (mergedRegistry batchSize st).length - maxFlights = n at htr ⊢
    rw [hm]
    exact List.take_append_of_le_length htr

/-- A minimal concrete flight used in registry scenarios. -/
def mkTestFlight (id : String) : IFlight :=
  { flightId := id, callsign := id, latitude := 0, longitude := 0,
    velocity := some 0, trueTrack := some 0, color := "#FFD700", isGhost := false }

/-- A keyed-object dataset entry with a valid position. -/
def mkObjState (id : String) : RawState :=
  .obj id none (some 0) (some 0) none none

/-- The spec scenario of C6: capacity 10, watermark ratio 0.8, occupancy 7
(ids a1..a7, in insertion order), and a pending batch of 5 fresh ids
b1..b5. -/
def scenarioState : ServerState :=
  { listeners := 1
    currentBatchIndex := 0
    allStates := [mkObjState "b1", mkObjState "b2", mkObjState "b3",
      mkObjState "b4", mkObjState "b5"]
    activeFlights := [("a1", mkTestFlight "a1"), ("a2", mkTestFlight "a2"),
      ("a3", mkTestFlight "a3"), ("a4", mkTestFlight "a4"),
      ("a5", mkTestFlight "a5"), ("a6", mkTestFlight "a6"),
      ("a7", mkTestFlight "a7")] }

/-- Witness for C6 at the spec scenario (capacity 10, watermark 8,
occupancy 7, batch of 5 fresh ids): resulting occupancy is exactly 10 and
the dropped prefix — the 2 oldest entries — comes from the pre-existing
registry only. -/
theorem C6_witness :
    (sendNextBatchP 10 5 scenarioState).activeFlights
        = (mergedRegistry 5 scenarioState).drop
            ((mergedRegistry 5 scenarioState).length - 10)
      ∧ (sendNextBatchP 10 5 scenarioState).activeFlights.length = 10
      ∧ (mergedRegistry 5 scenarioState).take
            ((mergedRegistry 5 scenarioState).length - 10)
          = scenarioState.activeFlights.take
              ((mergedRegistry 5 scenarioState).length - 10) :=
  C6_theorem 10 5 scenarioState (by decide) (by decide) (by decide) (by decide)
    (by decide) (by decide)

/-- In a distinct-key registry, the entry of a present key is unique. -/
lemma assoc_key_unique (A : List (String × IFlight)) (id : String) (f : IFlight)
    (hnd : (A.map Prod.fst).Nodup) (hmem : (id, f) ∈ A) :
    ∀ p ∈ A, p.1 = id → p.2 = f := by
  induction A with
  | nil =>
    intro p hp
    cases hp
  | cons a A ih =>
    have hnd' := hnd
    rw [List.map_cons, List.nodup_cons] at hnd'
    intro p hp hpid
    rcases List.mem_cons.mp hp with rfl | hp
    · rcases List.mem_cons.mp hmem with he | hm
      · rw [← he]
      · exfalso
        apply hnd'.1
        rw [hpid]
        exact List.mem_map_of_mem Prod.fst hm
    · rcases List.mem_cons.mp hmem with he | hm
      · exfalso
        apply hnd'.1
        have hmm : p.1 ∈ A.map Prod.fst := List.mem_map_of_mem Prod.fst hp
        rw [hpid] at hmm
        rw [← he]
        exact hmm
      · exact ih hnd'.2 hm p hp hpid

/-- C7: refilling with a batch containing an already-active id is
idempotent for that id — after `sendNextBatch` the registry keys are still
distinct (no duplicate entry is created) and any surviving entry keyed by
that id still carries the exact pre-refill record (its simulated position
is never overwritten or reset). -/
theorem C7_theorem (maxFlights batchSize : ℕ) (st : ServerState)
    (id : String) (f : IFlight)
    (hnd : (st.activeFlights.map Prod.fst).Nodup)
    (hmem : (id, f) ∈ st.activeFlights)
    (hbatch : id ∈ (newBatchFlights batchSize st).map IFlight.flightId) :
    ((sendNextBatchP maxFlights batchSize st).activeFlights.map Prod.fst).Nodup
      ∧ ∀ p ∈ (sendNextBatchP maxFlights batchSize st).activeFlights,
          p.1 = id → p.2 = f := by
  obtain ⟨news, he, hfresh, h3⟩ :=
    foldl_insertFlight_decomp (newBatchFlights batchSize st) st.activeFlights
  have hm : mergedRegistry batchSize st = st.activeFlights ++ news := he
  have hmerged : ∀ p ∈ mergedRegistry batchSize st, p.1 = id → p.2 = f := by
    intro p hp hpid
    rw [hm] at hp
    rcases List.mem_append.mp hp with hpA | hpN
    · exact assoc_key_unique st.activeFlights id f hnd hmem p hpA hpid
    · exfalso
      apply hfresh p hpN
      rw [hpid]
      exact List.mem_map_of_mem Prod.fst hmem
  have hAsub : ∀ p ∈ st.activeFlights, p ∈ mergedRegistry batchSize st := by
    intro p hp
    rw [hm]
    exact List.mem_append_left _ hp
  have hsub : ∀ p ∈ (sendNextBatchP maxFlights batchSize st).activeFlights,
      p ∈ mergedRegistry batchSize st := by
    unfold sendNextBatchP
    by_cases h0 : st.listeners = 0
    · rw [if_pos h0]
      exact hAsub
    rw [if_neg h0]
    by_cases h1 : 8 * maxFlights ≤ 10 * st.activeFlights.length
    · rw [if_pos h1]
      exact hAsub
    rw [if_neg h1]
    show ∀ p ∈ (if 0 < (newBatchFlights batchSize st).length
        then evictOldest maxFlights (mergedRegistry batchSize st)
        else st.activeFlights), p ∈ mergedRegistry batchSize st
    by_cases hb : 0 < (newBatchFlights batchSize st).length
    · rw [if_pos hb]
      exact evictOldest_subset _ _
    · rw [if_neg hb]
      exact hAsub
  exact ⟨sendNextBatchP_nodup _ _ _ hnd,
    fun p hp hpid => hmerged p (hsub p hp) hpid⟩

/-- Registry state used to instantiate C7: the id a1 is already active and
also occurs in the pending batch. -/
def c7State : ServerState :=
  { listeners := 1
    currentBatchIndex := 0
    allStates := [mkObjState "a1", mkObjState "c2"]
    activeFlights := [("a1", mkTestFlight "a1")] }

/-- Witness for C7: refilling `c7State`, whose batch re-encounters the
already-active id a1, neither duplicates a1 nor changes its record. -/
theorem C7_witness :
    ((sendNextBatchP 10 5 c7State).activeFlights.map Prod.fst).Nodup
      ∧ ∀ p ∈ (sendNextBatchP 10 5 c7State).activeFlights,
          p.1 = "a1" → p.2 = mkTestFlight "a1" :=
  C7_theorem 10 5 c7State "a1" (mkTestFlight "a1") (by decide)
    (List.mem_singleton.mpr rfl) (by decide)

/-- A frozen ghost search area (frontend `SearchArea`): the flight snapshot
copied at freeze time plus the freeze timestamp in milliseconds. -/
structure SearchArea where
  originalId : String
  frozenAt : ℝ
  latitude : ℝ
  longitude : ℝ
  velocity : Option ℝ
  trueTrack : Option ℝ

/-- The default value of the `safetyMargin` parameter of
`calculateSearchRadius` (`safetyMargin: number = 1.1`, i.e. +10%). -/
noncomputable def defaultSafetyMargin : ℝ := 1.1

/-- Frontend `calculateSearchRadius`: elapsed seconds since freeze times
the snapshot velocity (`searchArea.velocity || 0`, already m/s) times the
safety margin. -/
noncomputable def calculateSearchRadius (searchArea : SearchArea)
    (currentTime safetyMargin : ℝ) : ℝ :=
  let timeElapsedSeconds := (currentTime - searchArea.frozenAt) / 1000
  let velocityMetersPerSecond := searchArea.velocity.getD 0
  timeElapsedSeconds * velocityMetersPerSecond * safetyMargin

/-- C8: for a fixed search-area snapshot with non-negative velocity and a
safety margin of at least 1 (the default parameter value is 1.1), the
radius function is exactly `((t - frozenAt)/1000) * velocity * margin`,
vanishes at the freeze instant, and is non-decreasing in time. -/
theorem C8_theorem (area : SearchArea) (m t t1 t2 : ℝ)
    (hv : 0 ≤ area.velocity.getD 0) (hm : 1 ≤ m) (ht : t1 ≤ t2) :
    calculateSearchRadius area t m
        = (t - area.frozenAt) / 1000 * area.velocity.getD 0 * m
      ∧ calculateSearchRadius area area.frozenAt m = 0
      ∧ calculateSearchRadius area t1 m ≤ calculateSearchRadius area t2 m
      ∧ (1:ℝ) ≤ defaultSafetyMargin := by
  refine ⟨rfl, ?_, ?_, by norm_num [defaultSafetyMargin]⟩
  · show (area.frozenAt - area.frozenAt) / 1000 * (area.velocity.getD 0) * m = 0
    rw [sub_self, zero_div, zero_mul, zero_mul]
  · show (t1 - area.frozenAt) / 1000 * (area.velocity.getD 0) * m
        ≤ (t2 - area.frozenAt) / 1000 * (area.velocity.getD 0) * m
    apply mul_le_mul_of_nonneg_right _ (by linarith : (0:ℝ) ≤ m)
    apply mul_le_mul_of_nonneg_right _ hv
    linarith

/-- The ghost snapshot of the spec scenario: frozen at t = 0 with
velocity 50 m/s. -/
def demoArea : SearchArea :=
  { originalId := "d", frozenAt := 0, latitude := 32, longitude := 34.9,
    velocity := some 50, trueTrack := some 90 }

/-- Witness for C8 at the spec scenario snapshot (v = 50 m/s, frozen at 0,
margin 1.1, compared at t = 10 s and t = 20 s). -/
theorem C8_witness :
    calculateSearchRadius demoArea 20000 1.1
        = (20000 - demoArea.frozenAt) / 1000 * demoArea.velocity.getD 0 * 1.1
      ∧ calculateSearchRadius demoArea demoArea.frozenAt 1.1 = 0
      ∧ calculateSearchRadius demoArea 10000 1.1
          ≤ calculateSearchRadius demoArea 20000 1.1
      ∧ (1:ℝ) ≤ defaultSafetyMargin :=
  C8_theorem demoArea 1.1 20000 10000 20000
    (by norm_num [demoArea, Option.getD_some]) (by norm_num) (by norm_num)

/-- The input situations `loadDataset` can face, at the granularity the
code distinguishes them: file absent (`!fs.existsSync`), unparseable JSON
(`JSON.parse` throws), a non-empty array of keyed objects, the
`{time, states: [...]}` wrapper, or anything else (including an empty
array, for which `data.length > 0` fails and `data.states` is undefined). -/
inductive DatasetFile where
  | missing
  | corrupt
  | objectArray (states : List RawState)
  | statesWrapper (states : List RawState)
  | unrecognized

/-- The per-record position filter of `loadDataset`
(`obj.lat != null && obj.lon != null` for the object format;
`state[5] != null && state[6] != null` for the array format). -/
def hasPosition (s : RawState) : Bool :=
  match s with
  | .obj _ _ lat lon _ _ => lat.isSome && lon.isSome
  | .arr _ _ f5 f6 _ _ => f5.isSome && f6.isSome

/-- Backend `OpenSkyHistoricalService.loadDataset`: a missing file, a
parse failure and an unrecognized format are each logged and then THROWN
(`throw new Error(...)` / `throw error` in the catch block), modelled as
`Except.error`; on success the positioned records are kept and the
synthetic traffic of `generateSyntheticIsraeliTraffic` (whose randomized
content is abstracted as the `synthetic` parameter) is appended. -/
def loadDataset (synthetic : List RawState) (file : DatasetFile) :
    Except String (List RawState) :=
  match file with
  | .missing => .error "Historical dataset file not found"
  | .corrupt => .error "Unexpected token in JSON"
  | .objectArray states =>
      if 0 < states.length then .ok (states.filter hasPosition ++ synthetic)
      else .error "Dataset format not recognized"
  | .statesWrapper states => .ok (states.filter hasPosition ++ synthetic)
  | .unrecognized => .error "Dataset format not recognized"

/-- C9 counterexample: with the dataset file missing, `loadDataset` does
NOT yield an empty active set and continue — it propagates an error
(the backend throws an Error carrying that message), so the load
result equals no `ok` outcome at all, in particular not `ok []`. -/
theorem C9_counterexample :
    loadDataset [] DatasetFile.missing
        = Except.error "Historical dataset file not found"
      ∧ (loadDataset [] DatasetFile.missing).toOption = none :=
  ⟨rfl, rfl⟩

/-- C9 (amended): a missing dataset file, a corrupt (unparseable) file and
an unrecognized format each make `loadDataset` propagate an error to its
caller after logging — the failure is fatal to the load; no empty active
set is installed by `loadDataset` itself. -/
theorem C9_theorem (synthetic : List RawState) :
    loadDataset synthetic DatasetFile.missing
        = Except.error "Historical dataset file not found"
      ∧ (∃ e, loadDataset synthetic DatasetFile.corrupt = Except.error e)
      ∧ (∃ e, loadDataset synthetic DatasetFile.unrecognized = Except.error e) :=
  ⟨rfl, ⟨"Unexpected token in JSON", rfl⟩, ⟨"Dataset format not recognized", rfl⟩⟩

end FlightSim
